import Mathlib

/-!
Shallow embedding of the PowerNode Python Excel analysis MCP server
(`mcp-servers/excel-python-server.py`): the workbook model the analyzer
reads through openpyxl, the four analysis passes of `ExcelAnalyzer`, and
the JSON-RPC dispatch layer (`handle_request` / `main`), together with
theorems settling the specification claims about them.
-/

namespace Excel

/-- Python cell values as openpyxl surfaces them to the analyzer: absent
(`None`), a string, an integer, or a boolean. -/
inductive Value where
  | vNone
  | vStr (s : String)
  | vInt (n : Int)
  | vBool (b : Bool)
deriving DecidableEq

/-- Decimal digit characters of a natural number, accumulator style; the
fuel argument makes the recursion structural so the kernel can evaluate it. -/
def natStrAux : Nat → Nat → List Char → List Char
  | 0, _, acc => acc
  | fuel + 1, n, acc =>
    let c := Char.ofNat (48 + n % 10)
    if n / 10 = 0 then c :: acc else natStrAux fuel (n / 10) (c :: acc)

/-- Python `str` on a natural number (decimal). -/
def pyStrNat (n : Nat) : String := String.mk (natStrAux (n + 1) n [])

/-- Python `str` on an integer (decimal, `-` sign for negatives). -/
def pyStrInt : Int → String
  | Int.ofNat m => pyStrNat m
  | Int.negSucc m => "-" ++ pyStrNat (m + 1)

/-- Python `str(v)` for a cell value. -/
def pyStr : Value → String
  | Value.vNone => "None"
  | Value.vStr s => s
  | Value.vInt n => pyStrInt n
  | Value.vBool true => "True"
  | Value.vBool false => "False"

/-- Python truthiness of a cell value (`if cell.value:`). -/
def pyTruthy : Value → Bool
  | Value.vNone => false
  | Value.vStr s => !(s == "")
  | Value.vInt n => !(n == 0)
  | Value.vBool b => b

/-- Python character membership `c in s`. -/
def pyContains (c : Char) (s : String) : Bool := s.data.contains c

/-- openpyxl `get_column_letter`, accumulator style: repeated division by 26
with the zero remainder mapped to `Z` (bijective base 26); the fuel argument
makes the recursion structural. -/
def colLetterAux : Nat → Nat → List Char → List Char
  | 0, _, acc => acc
  | fuel + 1, n, acc =>
    if n = 0 then acc
    else
      let r := n % 26
      if r = 0 then colLetterAux fuel (n / 26 - 1) (Char.ofNat 90 :: acc)
      else colLetterAux fuel (n / 26) (Char.ofNat (r + 64) :: acc)

/-- openpyxl `get_column_letter`: spreadsheet label (A, B, …, Z, AA, …) of a
1-based column index. -/
def get_column_letter (n : Nat) : String := String.mk (colLetterAux n n [])

/-- An openpyxl cell comment: text plus an optionally recorded author (the
analyzer reads the author defensively through `getattr` with a default, so
the model keeps it optional). -/
structure Comment where
  text : String
  author : Option String
deriving DecidableEq

/-- An openpyxl cell as the analyzer reads it: its 1-based row and column,
its value and its optional comment. -/
structure Cell where
  row : Nat
  column : Nat
  value : Value
  comment : Option Comment
deriving DecidableEq

/-- openpyxl `cell.coordinate`: column letters followed by the row number. -/
def Cell.coordinate (c : Cell) : String := get_column_letter c.column ++ pyStrNat c.row

/-- A worksheet of the workbook model: name, bounding dimensions, cell
contents by 1-based coordinates (every coordinate is addressable, as in
openpyxl, with empty cells holding `None`), row and column visibility flags
(columns keyed by letter as in `column_dimensions`), and the sheet
visibility state string (`visible`, `hidden` or `veryHidden`). -/
structure Worksheet where
  name : String
  max_row : Nat
  max_column : Nat
  cellValue : Nat → Nat → Value
  cellComment : Nat → Nat → Option Comment
  rowHidden : Nat → Bool
  colHidden : String → Bool
  sheet_state : String

/-- openpyxl `ws.cell(row=r, column=c)`: always addressable. -/
def Worksheet.cell (ws : Worksheet) (r c : Nat) : Cell :=
  ⟨r, c, ws.cellValue r c, ws.cellComment r c⟩

/-- openpyxl `ws.iter_rows()`: rows `1..max_row`, each row holding the cells
of columns `1..max_column`, in ascending order. -/
def Worksheet.iter_rows (ws : Worksheet) : List (List Cell) :=
  (List.range' 1 ws.max_row).map (fun r =>
    (List.range' 1 ws.max_column).map (fun c => ws.cell r c))

/-- A workbook: its worksheets in definition order (the order of
`wb.sheetnames`; sheet names are unique, so iterating names and indexing is
iterating the sheets). -/
abbrev Workbook := List Worksheet

/-- One comment record of the comments report. -/
structure CommentRecord where
  cell : String
  value : String
  comment : String
  author : String
deriving DecidableEq

/-- Per-worksheet entry of the comments report. -/
structure SheetComments where
  sheet : String
  comment_count : Nat
  comments : List CommentRecord
deriving DecidableEq

/-- The report of `extract_comments`. -/
structure CommentsReport where
  filename : Option String
  total_comments : Nat
  worksheets : List SheetComments
deriving DecidableEq

/-- One question record of the questions report. -/
structure QuestionRecord where
  cell : String
  question : String
  answer_cell : String
  answer : String
deriving DecidableEq

/-- Per-worksheet entry of the questions report. -/
structure SheetQuestions where
  sheet : String
  question_count : Nat
  questions : List QuestionRecord
deriving DecidableEq

/-- The report of `extract_questions`. -/
structure QuestionsReport where
  filename : Option String
  total_questions : Nat
  worksheets : List SheetQuestions
deriving DecidableEq

/-- Per-worksheet entry of the hidden-content report. -/
structure SheetHidden where
  sheet : String
  hidden : Bool
  row_count : Nat
  column_count : Nat
  hidden_row_count : Nat
  hidden_column_count : Nat
  hidden_rows : List Nat
  hidden_columns : List String
deriving DecidableEq

/-- The report of `detect_hidden_content`. -/
structure HiddenReport where
  filename : Option String
  total_hidden_rows : Nat
  total_hidden_columns : Nat
  worksheets : List SheetHidden
deriving DecidableEq

/-- The summary block of `comprehensive_analysis`. -/
structure Summary where
  total_comments : Nat
  total_questions : Nat
  total_hidden_rows : Nat
  total_hidden_columns : Nat
  worksheet_count : Nat
deriving DecidableEq

/-- The report of `comprehensive_analysis`. -/
structure ComprehensiveReport where
  filename : Option String
  summary : Summary
  comments : CommentsReport
  questions : QuestionsReport
  hidden_content : HiddenReport
deriving DecidableEq

/-- Scan part of `ExcelAnalyzer.extract_comments`: for every sheet, collect
a record for every cell whose comment is present (`if cell.comment:`), with
the value stringified when truthy and empty otherwise, and the author read
with default `Unknown`; sheets with no comments are omitted, and the grand
total accumulates the appended entries' counts. -/
def extract_comments_wb (filename : Option String) (wb : Workbook) : CommentsReport :=
  let worksheets := wb.filterMap (fun ws =>
    let sheet_comments := ws.iter_rows.flatMap (fun row => row.filterMap (fun cell =>
      match cell.comment with
      | some cm => some { cell := cell.coordinate
                        , value := if pyTruthy cell.value then pyStr cell.value else ""
                        , comment := cm.text
                        , author := cm.author.getD "Unknown" }
      | none => none))
    if sheet_comments.isEmpty then none
    else some { sheet := ws.name
              , comment_count := sheet_comments.length
              , comments := sheet_comments })
  { filename := filename
  , total_comments := (worksheets.map (fun e => e.comment_count)).sum
  , worksheets := worksheets }

/-- Scan part of `ExcelAnalyzer.extract_questions`: for every sheet, collect
a record for every truthy cell whose stringified value contains `?`, reading
the answer from the cell immediately to the right; sheets with no questions
are omitted. -/
def extract_questions_wb (filename : Option String) (wb : Workbook) : QuestionsReport :=
  let worksheets := wb.filterMap (fun ws =>
    let sheet_questions := ws.iter_rows.flatMap (fun row => row.filterMap (fun cell =>
      if pyTruthy cell.value && pyContains '?' (pyStr cell.value) then
        let answer_cell := ws.cell cell.row (cell.column + 1)
        some { cell := cell.coordinate
             , question := pyStr cell.value
             , answer_cell := answer_cell.coordinate
             , answer := if pyTruthy answer_cell.value then pyStr answer_cell.value else "" }
      else none))
    if sheet_questions.isEmpty then none
    else some { sheet := ws.name
              , question_count := sheet_questions.length
              , questions := sheet_questions })
  { filename := filename
  , total_questions := (worksheets.map (fun e => e.question_count)).sum
  , worksheets := worksheets }

/-- Scan part of `ExcelAnalyzer.detect_hidden_content`: every sheet gets an
entry (none omitted) with the hidden rows of `1..max_row`, the hidden column
letters of `1..max_column`, the untruncated counts, and the emitted lists
truncated to the first 50; sheet-level hidden is `sheet_state == "hidden"`,
and the grand totals accumulate the untruncated per-sheet counts. -/
def detect_hidden_content_wb (filename : Option String) (wb : Workbook) : HiddenReport :=
  let worksheets := wb.map (fun ws =>
    let hidden_rows := (List.range' 1 ws.max_row).filter (fun r => ws.rowHidden r)
    let hidden_columns := (List.range' 1 ws.max_column).filterMap (fun c =>
      let col_letter := get_column_letter c
      if ws.colHidden col_letter then some col_letter else none)
    { sheet := ws.name
    , hidden := ws.sheet_state == "hidden"
    , row_count := ws.max_row
    , column_count := ws.max_column
    , hidden_row_count := hidden_rows.length
    , hidden_column_count := hidden_columns.length
    , hidden_rows := hidden_rows.take 50
    , hidden_columns := hidden_columns.take 50 })
  { filename := filename
  , total_hidden_rows := (worksheets.map (fun e => e.hidden_row_count)).sum
  , total_hidden_columns := (worksheets.map (fun e => e.hidden_column_count)).sum
  , worksheets := worksheets }

/-- Scan part of `ExcelAnalyzer.comprehensive_analysis`: runs the three
passes and assembles their totals into a summary, with the worksheet count
taken from the hidden-content report's worksheet list. -/
def comprehensive_analysis_wb (filename : Option String) (wb : Workbook) : ComprehensiveReport :=
  let comments := extract_comments_wb filename wb
  let questions := extract_questions_wb filename wb
  let hidden := detect_hidden_content_wb filename wb
  { filename := filename
  , summary := { total_comments := comments.total_comments
               , total_questions := questions.total_questions
               , total_hidden_rows := hidden.total_hidden_rows
               , total_hidden_columns := hidden.total_hidden_columns
               , worksheet_count := hidden.worksheets.length }
  , comments := comments
  , questions := questions
  , hidden_content := hidden }

/-- A Python exception as the dispatch layer observes it: its kind and its
message (`str(e)` is the message). -/
inductive PyErr where
  | typeErr (msg : String)
  | valueErr (msg : String)
  | loadErr (msg : String)
  | b64Err (msg : String)
deriving DecidableEq

/-- Python `str(e)` on an exception: the message. -/
def pyMessage : PyErr → String
  | PyErr.typeErr msg => msg
  | PyErr.valueErr msg => msg
  | PyErr.loadErr msg => msg
  | PyErr.b64Err msg => msg

/-- `ExcelAnalyzer.load_workbook_from_buffer`: staging a `None` buffer fails
(`tmp_file.write(None)` raises `TypeError`); otherwise the buffer is parsed
by openpyxl `load_workbook`, modelled by the `parse` oracle. -/
def load_workbook_from_buffer (parse : List Nat → Except PyErr Workbook) :
    Option (List Nat) → Except PyErr Workbook
  | none => Except.error (PyErr.typeErr "a bytes-like object is required, not NoneType")
  | some buf => parse buf

/-- `ExcelAnalyzer.extract_comments(filename, file_buffer)`: loads the
workbook from the buffer, then scans it. -/
def extract_comments (parse : List Nat → Except PyErr Workbook)
    (filename : Option String) (file_buffer : Option (List Nat)) :
    Except PyErr CommentsReport :=
  (load_workbook_from_buffer parse file_buffer).map (extract_comments_wb filename)

/-- `ExcelAnalyzer.extract_questions(filename, file_buffer)`. -/
def extract_questions (parse : List Nat → Except PyErr Workbook)
    (filename : Option String) (file_buffer : Option (List Nat)) :
    Except PyErr QuestionsReport :=
  (load_workbook_from_buffer parse file_buffer).map (extract_questions_wb filename)

/-- `ExcelAnalyzer.detect_hidden_content(filename, file_buffer)`. -/
def detect_hidden_content (parse : List Nat → Except PyErr Workbook)
    (filename : Option String) (file_buffer : Option (List Nat)) :
    Except PyErr HiddenReport :=
  (load_workbook_from_buffer parse file_buffer).map (detect_hidden_content_wb filename)

/-- `ExcelAnalyzer.comprehensive_analysis(filename, file_buffer)`: runs the
three passes, each re-loading the workbook from the same buffer, and builds
the summary from their totals. -/
def comprehensive_analysis (parse : List Nat → Except PyErr Workbook)
    (filename : Option String) (file_buffer : Option (List Nat)) :
    Except PyErr ComprehensiveReport := do
  let comments ← extract_comments parse filename file_buffer
  let questions ← extract_questions parse filename file_buffer
  let hidden ← detect_hidden_content parse filename file_buffer
  pure { filename := filename
       , summary := { total_comments := comments.total_comments
                    , total_questions := questions.total_questions
                    , total_hidden_rows := hidden.total_hidden_rows
                    , total_hidden_columns := hidden.total_hidden_columns
                    , worksheet_count := hidden.worksheets.length }
       , comments := comments
       , questions := questions
       , hidden_content := hidden }

/-- One tool descriptor of the static catalog: name, description and the
required-argument list of its JSON input schema (each schema declares one
string property `filename` and requires it). -/
structure Tool where
  name : String
  description : String
  required : List String
deriving DecidableEq

/-- The static catalog `TOOLS` of the server. -/
def TOOLS : List Tool :=
  [ { name := "extract_comments"
    , description := "Extract all Excel comments from a workbook. Returns comments with cell location, content, and author."
    , required := ["filename"] }
  , { name := "extract_questions"
    , description := "Find all cells containing questions (cells with ?). Automatically detects answers in adjacent cells."
    , required := ["filename"] }
  , { name := "detect_hidden_content"
    , description := "List all hidden rows, columns, and worksheets. Shows which content is hidden in the workbook."
    , required := ["filename"] }
  , { name := "comprehensive_analysis"
    , description := "Full workbook analysis - extracts comments, questions, hidden content, and provides summary statistics."
    , required := ["filename"] } ]

/-- The `arguments` object of a `tools/call` request. -/
structure Arguments where
  filename : Option String
deriving DecidableEq

/-- The `params` object of a request. -/
structure Params where
  name : Option String
  arguments : Option Arguments
deriving DecidableEq

/-- A decoded JSON-RPC request line as `handle_request` reads it: each field
optional, `fileContent` carrying the base64 payload when present. -/
structure Request where
  id : Option Int
  method : Option String
  params : Option Params
  fileContent : Option String
deriving DecidableEq

/-- A JSON-RPC error object. -/
structure RpcError where
  code : Int
  message : String
  data : String
deriving DecidableEq

/-- The result payload of a successful `tools/call`, wrapped by the handler
into the response content (the source serializes it with `json.dumps`). -/
inductive ToolResult where
  | comments (r : CommentsReport)
  | questions (r : QuestionsReport)
  | hidden (r : HiddenReport)
  | comprehensive (r : ComprehensiveReport)
deriving DecidableEq

/-- The result of a successful request. -/
inductive RpcResult where
  | initResult (protocolVersion serverName serverVersion : String)
  | toolsList (tools : List Tool)
  | content (r : ToolResult)
deriving DecidableEq

/-- Equality on `Except` results is decidable componentwise. -/
instance {ε α : Type} [DecidableEq ε] [DecidableEq α] : DecidableEq (Except ε α) := fun a b =>
  match a, b with
  | Except.ok x, Except.ok y =>
    if h : x = y then Decidable.isTrue (by rw [h])
    else Decidable.isFalse (fun hc => by cases hc; exact h rfl)
  | Except.error x, Except.error y =>
    if h : x = y then Decidable.isTrue (by rw [h])
    else Decidable.isFalse (fun hc => by cases hc; exact h rfl)
  | Except.ok _, Except.error _ => Decidable.isFalse (fun hc => by cases hc)
  | Except.error _, Except.ok _ => Decidable.isFalse (fun hc => by cases hc)

/-- A JSON-RPC response: the echoed id and either a result or an error. -/
structure Response where
  id : Int
  result : Except RpcError RpcResult
deriving DecidableEq

/-- The `try:` block of `handle_request`: method dispatch, base64 decoding
of the optional `fileContent` payload (the `b64decode` oracle models
`base64.b64decode`), and tool dispatch; raised exceptions are the `error`
case. -/
def handle_request_run (parse : List Nat → Except PyErr Workbook)
    (b64decode : String → Except PyErr (List Nat)) (request : Request) :
    Except PyErr RpcResult :=
  if request.method = some "initialize" then
    Except.ok (RpcResult.initResult "2024-11-05" "excel-python-mcp" "1.0.0")
  else if request.method = some "tools/list" then
    Except.ok (RpcResult.toolsList TOOLS)
  else if request.method = some "tools/call" then
    let params := request.params.getD { name := none, arguments := none }
    let tool_name := params.name
    let arguments := params.arguments.getD { filename := none }
    let filename := arguments.filename
    let decoded : Except PyErr (Option (List Nat)) :=
      match request.fileContent with
      | some s => (b64decode s).map (fun buf => some buf)
      | none => Except.ok none
    match decoded with
    | Except.error e => Except.error e
    | Except.ok file_buffer =>
      if tool_name = some "extract_comments" then
        (extract_comments parse filename file_buffer).map
          (fun r => RpcResult.content (ToolResult.comments r))
      else if tool_name = some "extract_questions" then
        (extract_questions parse filename file_buffer).map
          (fun r => RpcResult.content (ToolResult.questions r))
      else if tool_name = some "detect_hidden_content" then
        (detect_hidden_content parse filename file_buffer).map
          (fun r => RpcResult.content (ToolResult.hidden r))
      else if tool_name = some "comprehensive_analysis" then
        (comprehensive_analysis parse filename file_buffer).map
          (fun r => RpcResult.content (ToolResult.comprehensive r))
      else
        Except.error (PyErr.valueErr ("Unknown tool: " ++ (tool_name.getD "None")))
  else
    Except.error (PyErr.valueErr ("Unknown method: " ++ (request.method.getD "None")))

/-- `handle_request`: echoes the request id (default 0) and renders any
exception of the `try:` block as an error object with code `-32603`,
message `Internal error` and the exception's message as `data`. -/
def handle_request (parse : List Nat → Except PyErr Workbook)
    (b64decode : String → Except PyErr (List Nat)) (request : Request) : Response :=
  let req_id := request.id.getD 0
  match handle_request_run parse b64decode request with
  | Except.ok res => { id := req_id, result := Except.ok res }
  | Except.error e =>
    { id := req_id
    , result := Except.error { code := -32603, message := "Internal error", data := pyMessage e } }

/-- The response the `main` loop produces for one non-blank input line: a
line that fails JSON decoding (the `jsonParse` oracle models `json.loads`
plus field extraction) yields the parse-error response with id 0 and code
`-32700`; otherwise the decoded request is handled. -/
def respond_line (jsonParse : String → Except String Request)
    (parse : List Nat → Except PyErr Workbook)
    (b64decode : String → Except PyErr (List Nat)) (line : String) : Response :=
  match jsonParse line with
  | Except.ok request => handle_request parse b64decode request
  | Except.error e =>
    { id := 0
    , result := Except.error { code := -32700, message := "Parse error", data := e } }

/-- Python `not line.strip()`: true exactly when every character of the line
is whitespace. -/
def pyIsBlank (s : String) : Bool := s.data.all Char.isWhitespace

/-- The `main` loop: reads lines in order, skips lines that strip to empty
(`if not line.strip(): continue`), and prints exactly one response line for
every other input line. -/
def main (jsonParse : String → Except String Request)
    (parse : List Nat → Except PyErr Workbook)
    (b64decode : String → Except PyErr (List Nat)) (lines : List String) : List Response :=
  lines.filterMap (fun line =>
    if pyIsBlank line then none
    else some (respond_line jsonParse parse b64decode line))

/-! ### Spec-side definitions

The following definitions restate, in the specification's declarative
vocabulary, the quantities the reports are claimed to expose; the theorems
below compare them with the code-shaped definitions above. -/

/-- The true, untruncated list of hidden row numbers of a worksheet: the
rows of `1..max_row` whose row dimension is hidden, in ascending order. -/
def trueHiddenRows (ws : Worksheet) : List Nat :=
  (List.range' 1 ws.max_row).filter (fun r => ws.rowHidden r)

/-- The true, untruncated hidden column indices of a worksheet: the columns
of `1..max_column` whose column dimension (keyed by letter) is hidden, in
ascending order. -/
def trueHiddenColIdx (ws : Worksheet) : List Nat :=
  (List.range' 1 ws.max_column).filter (fun c => ws.colHidden (get_column_letter c))

/-- The true, untruncated hidden column letters of a worksheet. -/
def trueHiddenCols (ws : Worksheet) : List String :=
  (trueHiddenColIdx ws).map get_column_letter

/-- Spec-side description of a worksheet's question records: one record per
cell (in row-major order over the flattened bounding box) whose stringified
value contains `?`, with the answer coordinate always computed from the cell
immediately to the right and the answer text empty when that cell's value is
not truthy. -/
def spec_questions (ws : Worksheet) : List QuestionRecord :=
  (ws.iter_rows.flatMap id).filterMap (fun cell =>
    if pyContains '?' (pyStr cell.value) then
      some { cell := cell.coordinate
           , question := pyStr cell.value
           , answer_cell := (ws.cell cell.row (cell.column + 1)).coordinate
           , answer := if pyTruthy (ws.cell cell.row (cell.column + 1)).value then
                         pyStr (ws.cell cell.row (cell.column + 1)).value else "" }
    else none)

/-- Spec-side description of a worksheet's comment records: one record per
cell (in row-major order over the flattened bounding box) carrying a
comment, with the value stringified when truthy and empty otherwise, and the
author defaulting to `Unknown` when not recorded. -/
def spec_comments (ws : Worksheet) : List CommentRecord :=
  (ws.iter_rows.flatMap id).filterMap (fun cell =>
    match cell.comment with
    | some cm => some { cell := cell.coordinate
                      , value := if pyTruthy cell.value then pyStr cell.value else ""
                      , comment := cm.text
                      , author := cm.author.getD "Unknown" }
    | none => none)

/-! ### Concrete fixtures for witnesses and counterexamples -/

/-- The specification's question scenario: sheet `Sheet1` with
`A1 = "Is this done?"` and `B1 = "Yes"`. -/
def wsC4 : Worksheet :=
  { name := "Sheet1"
  , max_row := 1
  , max_column := 2
  , cellValue := fun r c =>
      if r == 1 && c == 1 then Value.vStr "Is this done?"
      else if r == 1 && c == 2 then Value.vStr "Yes"
      else Value.vNone
  , cellComment := fun _ _ => none
  , rowHidden := fun _ => false
  , colHidden := fun _ => false
  , sheet_state := "visible" }

/-- A sheet whose cell `A1` holds the integer value `0` (a present but falsy
value) and carries a comment. -/
def wsC5 : Worksheet :=
  { name := "Sheet1"
  , max_row := 1
  , max_column := 1
  , cellValue := fun r c => if r == 1 && c == 1 then Value.vInt 0 else Value.vNone
  , cellComment := fun r c =>
      if r == 1 && c == 1 then some { text := "zero cell", author := some "Alice" } else none
  , rowHidden := fun _ => false
  , colHidden := fun _ => false
  , sheet_state := "visible" }

/-- A sheet with two commented cells: `A1` has a value and a comment with no
recorded author, `B1` has no value and a comment authored by `Bob`. -/
def wsC5amd : Worksheet :=
  { name := "Sheet1"
  , max_row := 1
  , max_column := 2
  , cellValue := fun r c => if r == 1 && c == 1 then Value.vStr "v" else Value.vNone
  , cellComment := fun r c =>
      if r == 1 && c == 1 then some { text := "first", author := none }
      else if r == 1 && c == 2 then some { text := "second", author := some "Bob" }
      else none
  , rowHidden := fun _ => false
  , colHidden := fun _ => false
  , sheet_state := "visible" }

/-- A sheet with 51 hidden rows, more than the 50-entry truncation limit. -/
def wsC3 : Worksheet :=
  { name := "Data"
  , max_row := 51
  , max_column := 1
  , cellValue := fun _ _ => Value.vNone
  , cellComment := fun _ _ => none
  , rowHidden := fun _ => true
  , colHidden := fun _ => false
  , sheet_state := "visible" }

/-- A sheet in the `veryHidden` visibility state. -/
def wsC10 : Worksheet :=
  { name := "Secret"
  , max_row := 1
  , max_column := 1
  , cellValue := fun _ _ => Value.vNone
  , cellComment := fun _ _ => none
  , rowHidden := fun _ => false
  , colHidden := fun _ => false
  , sheet_state := "veryHidden" }

/-- A parsing oracle that accepts every buffer as the empty workbook. -/
def parse0 : List Nat → Except PyErr Workbook := fun _ => Except.ok []

/-- A base64 oracle that decodes every payload to the empty byte string. -/
def b640 : String → Except PyErr (List Nat) := fun _ => Except.ok []

/-- A fixed decoded request: an `initialize` call with id 7. -/
def reqInit : Request := { id := some 7, method := some "initialize", params := none, fileContent := none }

/-- A request with an unrecognized method name. -/
def reqBadMethod : Request := { id := some 3, method := some "nope", params := none, fileContent := none }

/-- A JSON oracle that decodes every line to `reqInit`. -/
def jpOk : String → Except String Request := fun _ => Except.ok reqInit

/-- A JSON oracle that rejects every line, as `json.loads` does on malformed
input. -/
def jpBad : String → Except String Request :=
  fun _ => Except.error "Expecting value: line 1 column 1 (char 0)"

/-- A minimal `tools/call` request: a name, a `filename` argument, and an
optional base64 payload. -/
def mkToolCall (i : Int) (name : String) (filename : Option String)
    (fileContent : Option String) : Request :=
  { id := some i
  , method := some "tools/call"
  , params := some { name := some name, arguments := some { filename := filename } }
  , fileContent := fileContent }

/-- The comprehensive report of the empty workbook, used to instantiate the
composition theorem. -/
def repC1 : ComprehensiveReport := comprehensive_analysis_wb (some "a.xlsx") []

/-! ### Helper lemmas -/

/-- Every character produced by `natStrAux` beyond the accumulator is a
decimal digit character. -/
theorem natStrAux_mem : ∀ (fuel n : Nat) (acc : List Char) (c : Char),
    c ∈ natStrAux fuel n acc → c ∈ acc ∨ ∃ d, d < 10 ∧ c = Char.ofNat (48 + d) := by
  intro fuel
  induction fuel with
  | zero => intro n acc c h; exact Or.inl h
  | succ fuel ih =>
    intro n acc c h
    simp only [natStrAux] at h
    by_cases hz : n / 10 = 0
    · rw [if_pos hz] at h
      rcases List.mem_cons.mp h with h1 | h1
      · exact Or.inr ⟨n % 10, Nat.mod_lt _ (by norm_num), h1⟩
      · exact Or.inl h1
    · rw [if_neg hz] at h
      rcases ih _ _ _ h with h1 | h1
      · rcases List.mem_cons.mp h1 with h2 | h2
        · exact Or.inr ⟨n % 10, Nat.mod_lt _ (by norm_num), h2⟩
        · exact Or.inl h2
      · exact Or.inr h1

/-- The decimal rendering of a natural number never contains `?`. -/
theorem qmark_not_mem_pyStrNat (n : Nat) : ¬ '?' ∈ (pyStrNat n).data := by
  intro h
  have h2 : '?' ∈ natStrAux (n + 1) n [] := h
  rcases natStrAux_mem _ _ _ _ h2 with h1 | h1
  · exact absurd h1 (List.not_mem_nil _)
  · rcases h1 with ⟨d, hd, hc⟩
    interval_cases d <;> exact absurd hc (by decide)

/-- The decimal rendering of an integer never contains `?`. -/
theorem qmark_not_mem_pyStrInt (n : Int) : ¬ '?' ∈ (pyStrInt n).data := by
  cases n with
  | ofNat m => exact qmark_not_mem_pyStrNat m
  | negSucc m =>
    intro h
    have h2 : '?' ∈ ("-" ++ pyStrNat (m + 1)).data := h
    rw [String.data_append] at h2
    rcases List.mem_append.mp h2 with h1 | h1
    · exact absurd h1 (by decide)
    · exact qmark_not_mem_pyStrNat _ h1

/-- A cell value whose Python stringification contains `?` is truthy: `None`
renders as `None`, booleans as `True`/`False`, integers as decimal digits,
and a string containing `?` is nonempty. -/
theorem pyTruthy_of_contains (v : Value) (h : pyContains '?' (pyStr v) = true) :
    pyTruthy v = true := by
  cases v with
  | vNone => exact absurd h (by decide)
  | vStr s =>
    have hm : '?' ∈ s.data := by simpa [pyContains, pyStr] using h
    have hne : s ≠ "" := by
      intro he
      subst he
      simp at hm
    simp [pyTruthy, hne]
  | vInt n =>
    have hm : '?' ∈ (pyStrInt n).data := by simpa [pyContains, pyStr] using h
    exact absurd hm (qmark_not_mem_pyStrInt n)
  | vBool b => cases b <;> exact absurd h (by decide)

/-- Collecting per-row findings and concatenating equals collecting over the
flattened cell list. -/
theorem flatMap_filterMap {α β : Type} (l : List (List α)) (f : α → Option β) :
    l.flatMap (fun row => row.filterMap f) = (l.flatMap id).filterMap f := by
  induction l with
  | nil => rfl
  | cons r t ih => simp [List.flatMap_cons, List.filterMap_append, ih]

/-- `filterMap` of a guarded image equals mapping over the filtered list. -/
theorem filterMap_if_eq_map_filter {α β : Type} (l : List α) (f : α → β) (p : β → Bool) :
    l.filterMap (fun a => if p (f a) then some (f a) else none) =
      (l.filter (fun a => p (f a))).map f := by
  induction l with
  | nil => rfl
  | cons a t ih =>
    by_cases h : p (f a) = true
    · simp [List.filterMap_cons, List.filter_cons, h, ih]
    · simp [List.filterMap_cons, List.filter_cons, h, ih]

/-- The per-worksheet scan of `extract_questions` (which additionally tests
Python truthiness of the cell value) collects exactly the spec-side question
records: a stringified value containing `?` is necessarily truthy. -/
theorem questions_inner_eq (ws : Worksheet) :
    ws.iter_rows.flatMap (fun row => row.filterMap (fun cell =>
      if pyTruthy cell.value && pyContains '?' (pyStr cell.value) then
        some { cell := cell.coordinate
             , question := pyStr cell.value
             , answer_cell := (ws.cell cell.row (cell.column + 1)).coordinate
             , answer := if pyTruthy (ws.cell cell.row (cell.column + 1)).value then
                           pyStr (ws.cell cell.row (cell.column + 1)).value else "" }
      else none)) = spec_questions ws := by
  rw [spec_questions, ← flatMap_filterMap]
  refine congrArg _ ?_
  funext row
  refine List.filterMap_congr ?_
  intro cell _
  cases hq : pyContains '?' (pyStr cell.value) with
  | false => simp [hq]
  | true => simp [hq, pyTruthy_of_contains cell.value hq]

/-! ### Claim theorems -/

/-- Claim C1: for every workbook, the summary of `comprehensive_analysis`
equals the totals of the three sub-reports run directly — `total_comments`
from `extract_comments`, `total_questions` from `extract_questions`, the two
hidden totals from `detect_hidden_content`, and `worksheet_count` the number
of worksheet entries of the hidden-content report; at buffer level the
composition agrees with direct invocation of each pass. -/
theorem C1_comprehensive_summary_composes :
    (∀ (fn : Option String) (wb : Workbook),
      (comprehensive_analysis_wb fn wb).summary.total_comments =
        (extract_comments_wb fn wb).total_comments
      ∧ (comprehensive_analysis_wb fn wb).summary.total_questions =
        (extract_questions_wb fn wb).total_questions
      ∧ (comprehensive_analysis_wb fn wb).summary.total_hidden_rows =
        (detect_hidden_content_wb fn wb).total_hidden_rows
      ∧ (comprehensive_analysis_wb fn wb).summary.total_hidden_columns =
        (detect_hidden_content_wb fn wb).total_hidden_columns
      ∧ (comprehensive_analysis_wb fn wb).summary.worksheet_count =
        (detect_hidden_content_wb fn wb).worksheets.length)
    ∧ (∀ (parse : List Nat → Except PyErr Workbook) (fn : Option String)
        (buf : Option (List Nat)) (rep : ComprehensiveReport),
        comprehensive_analysis parse fn buf = Except.ok rep →
        extract_comments parse fn buf = Except.ok rep.comments
        ∧ extract_questions parse fn buf = Except.ok rep.questions
        ∧ detect_hidden_content parse fn buf = Except.ok rep.hidden_content
        ∧ rep.summary.total_comments = rep.comments.total_comments
        ∧ rep.summary.total_questions = rep.questions.total_questions
        ∧ rep.summary.total_hidden_rows = rep.hidden_content.total_hidden_rows
        ∧ rep.summary.total_hidden_columns = rep.hidden_content.total_hidden_columns
        ∧ rep.summary.worksheet_count = rep.hidden_content.worksheets.length) := by
  constructor
  · intro fn wb
    exact ⟨rfl, rfl, rfl, rfl, rfl⟩
  · intro parse fn buf rep h
    cases hload : load_workbook_from_buffer parse buf with
    | error e =>
      exfalso
      simp [comprehensive_analysis, extract_comments, extract_questions,
        detect_hidden_content, hload, Except.map, Bind.bind, Except.bind] at h
    | ok wb =>
      simp [comprehensive_analysis, extract_comments, extract_questions,
        detect_hidden_content, hload, Except.map, Bind.bind, Except.bind,
        pure, Except.pure] at h
      subst h
      refine ⟨?_, ?_, ?_, rfl, rfl, rfl, rfl, rfl⟩
      · simp [extract_comments, hload, Except.map]
      · simp [extract_questions, hload, Except.map]
      · simp [detect_hidden_content, hload, Except.map]

/-- Witness for C1: the composition theorem instantiated on a concrete
parsing oracle, buffer and report. -/
theorem C1_witness :
    comprehensive_analysis parse0 (some "a.xlsx") (some []) = Except.ok repC1
    ∧ (extract_comments parse0 (some "a.xlsx") (some []) = Except.ok repC1.comments
       ∧ extract_questions parse0 (some "a.xlsx") (some []) = Except.ok repC1.questions
       ∧ detect_hidden_content parse0 (some "a.xlsx") (some []) = Except.ok repC1.hidden_content
       ∧ repC1.summary.total_comments = repC1.comments.total_comments
       ∧ repC1.summary.total_questions = repC1.questions.total_questions
       ∧ repC1.summary.total_hidden_rows = repC1.hidden_content.total_hidden_rows
       ∧ repC1.summary.total_hidden_columns = repC1.hidden_content.total_hidden_columns
       ∧ repC1.summary.worksheet_count = repC1.hidden_content.worksheets.length) :=
  ⟨rfl, C1_comprehensive_summary_composes.2 parse0 (some "a.xlsx") (some []) repC1 rfl⟩

/-- Claim C2: for every workbook and worksheet, the emitted `hidden_rows`
and `hidden_columns` lists of `detect_hidden_content` are the first 50
entries (ascending) of the true hidden lists, hence never exceed 50 entries,
while the per-worksheet count fields and the report totals carry the true
untruncated counts. -/
theorem C2_hidden_truncation (fn : Option String) (wb : Workbook) :
    ((detect_hidden_content_wb fn wb).worksheets.map (fun e => e.hidden_rows) =
      wb.map (fun ws => (trueHiddenRows ws).take 50))
    ∧ ((detect_hidden_content_wb fn wb).worksheets.map (fun e => e.hidden_columns) =
      wb.map (fun ws => (trueHiddenCols ws).take 50))
    ∧ ((detect_hidden_content_wb fn wb).worksheets.map (fun e => e.hidden_row_count) =
      wb.map (fun ws => (trueHiddenRows ws).length))
    ∧ ((detect_hidden_content_wb fn wb).worksheets.map (fun e => e.hidden_column_count) =
      wb.map (fun ws => (trueHiddenCols ws).length))
    ∧ ((detect_hidden_content_wb fn wb).total_hidden_rows =
      (wb.map (fun ws => (trueHiddenRows ws).length)).sum)
    ∧ ((detect_hidden_content_wb fn wb).total_hidden_columns =
      (wb.map (fun ws => (trueHiddenCols ws).length)).sum)
    ∧ (∀ ws : Worksheet,
        ((trueHiddenRows ws).take 50).length ≤ 50
        ∧ ((trueHiddenCols ws).take 50).length ≤ 50
        ∧ ((trueHiddenRows ws).take 50).Pairwise (fun a b => a < b)
        ∧ (trueHiddenCols ws).take 50 = ((trueHiddenColIdx ws).take 50).map get_column_letter
        ∧ ((trueHiddenColIdx ws).take 50).Pairwise (fun a b => a < b)) := by
  have hcols : ∀ ws : Worksheet,
      (List.range' 1 ws.max_column).filterMap (fun c =>
        if ws.colHidden (get_column_letter c) then some (get_column_letter c) else none) =
      trueHiddenCols ws := by
    intro ws
    exact filterMap_if_eq_map_filter _ get_column_letter ws.colHidden
  refine ⟨?_, ?_, ?_, ?_, ?_, ?_, ?_⟩
  · simp only [detect_hidden_content_wb, List.map_map]; rfl
  · simp only [detect_hidden_content_wb, List.map_map]
    refine List.map_congr_left ?_
    intro ws _
    simp only [Function.comp]
    rw [← hcols ws]
  · simp only [detect_hidden_content_wb, List.map_map]; rfl
  · simp only [detect_hidden_content_wb, List.map_map]
    refine List.map_congr_left ?_
    intro ws _
    simp only [Function.comp]
    rw [← hcols ws]
  · simp only [detect_hidden_content_wb, List.map_map]; rfl
  · simp only [detect_hidden_content_wb, List.map_map]
    congr 1
    refine List.map_congr_left ?_
    intro ws _
    simp only [Function.comp]
    rw [← hcols ws]
  · intro ws
    refine ⟨?_, ?_, ?_, ?_, ?_⟩
    · rw [List.length_take]; exact min_le_left _ _
    · rw [List.length_take]; exact min_le_left _ _
    · exact List.Pairwise.sublist (List.take_sublist 50 _)
        (List.Pairwise.filter _ (List.pairwise_lt_range' 1 ws.max_row))
    · rw [trueHiddenCols, List.map_take]
    · exact List.Pairwise.sublist (List.take_sublist 50 _)
        (List.Pairwise.filter _ (List.pairwise_lt_range' 1 ws.max_column))

/-- Counterexample to claim C3: with 51 hidden rows, the worksheet entry's
`hidden_row_count` is 51 while the accompanying `hidden_rows` list is
truncated to 50 entries, so a count field does not equal the length of the
list it accompanies. -/
theorem C3_counterexample :
    ¬ (∀ e ∈ (detect_hidden_content_wb (some "big.xlsx") [wsC3]).worksheets,
        e.hidden_row_count = e.hidden_rows.length) := by decide

/-- Claim C3 as amended: `comment_count` and `question_count` always equal
the length of the list they accompany; `hidden_row_count` and
`hidden_column_count` carry the untruncated totals, so the accompanying
(truncated) lists have length `min(count, 50)` — equal to the count only
when the count is at most 50. -/
theorem C3_counts_amended (fn : Option String) (wb : Workbook) :
    ((extract_comments_wb fn wb).worksheets.map (fun e => e.comment_count) =
      (extract_comments_wb fn wb).worksheets.map (fun e => e.comments.length))
    ∧ ((extract_questions_wb fn wb).worksheets.map (fun e => e.question_count) =
      (extract_questions_wb fn wb).worksheets.map (fun e => e.questions.length))
    ∧ ((detect_hidden_content_wb fn wb).worksheets.map (fun e => e.hidden_rows.length) =
      (detect_hidden_content_wb fn wb).worksheets.map (fun e => min e.hidden_row_count 50))
    ∧ ((detect_hidden_content_wb fn wb).worksheets.map (fun e => e.hidden_columns.length) =
      (detect_hidden_content_wb fn wb).worksheets.map (fun e => min e.hidden_column_count 50)) := by
  refine ⟨?_, ?_, ?_, ?_⟩
  · refine List.map_congr_left ?_
    intro e he
    simp only [extract_comments_wb] at he
    rcases List.mem_filterMap.mp he with ⟨ws, _, hFe⟩
    split at hFe
    · exact absurd hFe (by simp)
    · cases hFe
      rfl
  · refine List.map_congr_left ?_
    intro e he
    simp only [extract_questions_wb] at he
    rcases List.mem_filterMap.mp he with ⟨ws, _, hFe⟩
    split at hFe
    · exact absurd hFe (by simp)
    · cases hFe
      rfl
  · refine List.map_congr_left ?_
    intro e he
    simp only [detect_hidden_content_wb] at he
    rcases List.mem_map.mp he with ⟨ws, _, hFe⟩
    cases hFe
    show (List.take 50 _).length = min _ 50
    rw [List.length_take, Nat.min_comm]
  · refine List.map_congr_left ?_
    intro e he
    simp only [detect_hidden_content_wb] at he
    rcases List.mem_map.mp he with ⟨ws, _, hFe⟩
    cases hFe
    show (List.take 50 _).length = min _ 50
    rw [List.length_take, Nat.min_comm]

/-- Claim C4: `extract_questions` emits one record per cell whose
stringified value contains `?`, the answer coordinate always computed from
the cell immediately to the right (same row, column + 1) and the answer
empty when that cell is empty; on the scenario workbook with
`A1 = "Is this done?"` and `B1 = "Yes"` it yields exactly one entry
`(A1, "Is this done?", B1, "Yes")` with `total_questions = 1`. -/
theorem C4_extract_questions_spec (fn : Option String) (wb : Workbook) :
    ((extract_questions_wb fn wb).worksheets = wb.filterMap (fun ws =>
      if (spec_questions ws).isEmpty then none
      else some { sheet := ws.name
                , question_count := (spec_questions ws).length
                , questions := spec_questions ws }))
    ∧ extract_questions_wb (some "test.xlsx") [wsC4] =
      { filename := some "test.xlsx"
      , total_questions := 1
      , worksheets := [ { sheet := "Sheet1", question_count := 1
                        , questions := [ { cell := "A1", question := "Is this done?"
                                         , answer_cell := "B1", answer := "Yes" } ] } ] } := by
  constructor
  · simp only [extract_questions_wb]
    refine List.filterMap_congr ?_
    intro ws _
    rw [questions_inner_eq ws]
  · decide

/-- Counterexample to claim C5: cell `A1` of `wsC5` holds the integer value
`0` — a present value whose stringification is `0` — yet the emitted comment
record carries the empty string as its value, so the emitted value is not
the cell's stringified value and is empty although the cell has a value. -/
theorem C5_counterexample :
    wsC5.cellValue 1 1 ≠ Value.vNone
    ∧ pyStr (wsC5.cellValue 1 1) = "0"
    ∧ (extract_comments_wb (some "z.xlsx") [wsC5]).worksheets.map
        (fun e => e.comments.map (fun r => (r.cell, r.value))) = [[("A1", "")]]
    ∧ ¬ ((extract_comments_wb (some "z.xlsx") [wsC5]).worksheets.map
          (fun e => e.comments.map (fun r => r.value)) =
        [[pyStr (wsC5.cellValue 1 1)]]) := by decide

/-- Claim C5 as amended: `extract_comments` emits, for each cell carrying a
comment, a record with the cell coordinate, the comment text, the author
defaulting to `Unknown` when not recorded, and the value stringified when
the cell's value is truthy and the empty string otherwise (so also empty for
present falsy values such as `0`, `False` or the empty string); illustrated
on a workbook exercising the author default and an absent value. -/
theorem C5_extract_comments_amended (fn : Option String) (wb : Workbook) :
    ((extract_comments_wb fn wb).worksheets = wb.filterMap (fun ws =>
      if (spec_comments ws).isEmpty then none
      else some { sheet := ws.name
                , comment_count := (spec_comments ws).length
                , comments := spec_comments ws }))
    ∧ extract_comments_wb (some "notes.xlsx") [wsC5amd] =
      { filename := some "notes.xlsx"
      , total_comments := 2
      , worksheets := [ { sheet := "Sheet1", comment_count := 2
                        , comments := [ { cell := "A1", value := "v"
                                        , comment := "first", author := "Unknown" }
                                      , { cell := "B1", value := ""
                                        , comment := "second", author := "Bob" } ] } ] } := by
  constructor
  · simp only [extract_comments_wb]
    refine List.filterMap_congr ?_
    intro ws _
    rw [flatMap_filterMap]
    rfl
  · decide

/-- Claim C6: every response echoes the request's id, defaulting to 0 when
the id is absent or the line is malformed; a line that fails JSON decoding
produces an error response with id 0 and code `-32700`; and any failure
inside the handler's `try:` block is rendered as an error response with code
`-32603` whose `data` field carries the cause's message. -/
theorem C6_id_echo_and_error_codes :
    (∀ (jsonParse : String → Except String Request) (parse : List Nat → Except PyErr Workbook)
       (b64decode : String → Except PyErr (List Nat)) (line : String) (r : Request),
       jsonParse line = Except.ok r →
       (respond_line jsonParse parse b64decode line).id = r.id.getD 0)
    ∧ (∀ (jsonParse : String → Except String Request) (parse : List Nat → Except PyErr Workbook)
       (b64decode : String → Except PyErr (List Nat)) (line : String) (e : String),
       jsonParse line = Except.error e →
       respond_line jsonParse parse b64decode line =
         { id := 0
         , result := Except.error { code := -32700, message := "Parse error", data := e } })
    ∧ (∀ (parse : List Nat → Except PyErr Workbook) (b64decode : String → Except PyErr (List Nat))
       (request : Request) (e : PyErr),
       handle_request_run parse b64decode request = Except.error e →
       handle_request parse b64decode request =
         { id := request.id.getD 0
         , result := Except.error { code := -32603, message := "Internal error"
                                  , data := pyMessage e } }) := by
  refine ⟨?_, ?_, ?_⟩
  · intro jsonParse parse b64decode line r h
    simp only [respond_line, h]
    cases hr : handle_request_run parse b64decode r <;> simp [handle_request, hr]
  · intro jsonParse parse b64decode line e h
    simp only [respond_line, h]
  · intro parse b64decode request e h
    simp only [handle_request, h]

/-- Witness for C6: a decoded request with id 7 is answered with id 7, a
rejected line yields the `-32700` parse-error response with id 0, and an
unknown method yields the `-32603` internal-error response carrying the
cause. -/
theorem C6_witness :
    (respond_line jpOk parse0 b640 "x").id = (7 : Int)
    ∧ respond_line jpBad parse0 b640 "oops" =
      { id := 0
      , result := Except.error { code := -32700, message := "Parse error"
                               , data := "Expecting value: line 1 column 1 (char 0)" } }
    ∧ handle_request parse0 b640 reqBadMethod =
      { id := 3
      , result := Except.error { code := -32603, message := "Internal error"
                               , data := "Unknown method: nope" } } :=
  ⟨C6_id_echo_and_error_codes.1 jpOk parse0 b640 "x" reqInit rfl,
   C6_id_echo_and_error_codes.2.1 jpBad parse0 b640 "oops"
     "Expecting value: line 1 column 1 (char 0)" rfl,
   C6_id_echo_and_error_codes.2.2 parse0 b640 reqBadMethod
     (PyErr.valueErr "Unknown method: nope") rfl⟩

/-- Claim C7: `tools/list` returns the static catalog of exactly four tool
descriptors; a `tools/call` with any cataloged name and a minimal valid
argument set is dispatched to the matching engine pass and succeeds (in
particular it never fails with the unknown-tool error), while any name
outside the catalog fails with the unknown-tool error. -/
theorem C7_tool_catalog_roundtrip :
    TOOLS.length = 4
    ∧ TOOLS.map (fun t => t.name) =
        ["extract_comments", "extract_questions", "detect_hidden_content", "comprehensive_analysis"]
    ∧ (∀ (parse : List Nat → Except PyErr Workbook) (b64decode : String → Except PyErr (List Nat))
        (request : Request), request.method = some "tools/list" →
        handle_request parse b64decode request =
          { id := request.id.getD 0, result := Except.ok (RpcResult.toolsList TOOLS) })
    ∧ (∀ (parse : List Nat → Except PyErr Workbook) (b64decode : String → Except PyErr (List Nat))
        (i : Int) (fn : Option String) (s : String) (buf : List Nat) (wb : Workbook),
        b64decode s = Except.ok buf → parse buf = Except.ok wb →
        handle_request parse b64decode (mkToolCall i "extract_comments" fn (some s)) =
          { id := i
          , result := Except.ok (RpcResult.content (ToolResult.comments (extract_comments_wb fn wb))) }
        ∧ handle_request parse b64decode (mkToolCall i "extract_questions" fn (some s)) =
          { id := i
          , result := Except.ok (RpcResult.content (ToolResult.questions (extract_questions_wb fn wb))) }
        ∧ handle_request parse b64decode (mkToolCall i "detect_hidden_content" fn (some s)) =
          { id := i
          , result := Except.ok (RpcResult.content (ToolResult.hidden (detect_hidden_content_wb fn wb))) }
        ∧ handle_request parse b64decode (mkToolCall i "comprehensive_analysis" fn (some s)) =
          { id := i
          , result := Except.ok (RpcResult.content (ToolResult.comprehensive (comprehensive_analysis_wb fn wb))) })
    ∧ (∀ name : String, ¬ name ∈ TOOLS.map (fun t => t.name) →
        ∀ (parse : List Nat → Except PyErr Workbook) (b64decode : String → Except PyErr (List Nat))
          (i : Int) (fn : Option String),
        handle_request parse b64decode (mkToolCall i name fn none) =
          { id := i
          , result := Except.error { code := -32603, message := "Internal error"
                                   , data := "Unknown tool: " ++ name } }) := by
  refine ⟨rfl, rfl, ?_, ?_, ?_⟩
  · intro parse b64decode request h
    simp [handle_request, handle_request_run, h]
  · intro parse b64decode i fn s buf wb hb hp
    refine ⟨?_, ?_, ?_, ?_⟩ <;>
      simp [handle_request, handle_request_run, mkToolCall, hb, hp,
        extract_comments, extract_questions, detect_hidden_content, comprehensive_analysis,
        comprehensive_analysis_wb, load_workbook_from_buffer, Except.map, Bind.bind, Except.bind,
        pure, Except.pure]
  · intro name hmem parse b64decode i fn
    simp only [TOOLS, List.map_cons, List.map_nil, List.mem_cons, List.not_mem_nil, or_false,
      not_or] at hmem
    obtain ⟨h1, h2, h3, h4⟩ := hmem
    simp [handle_request, handle_request_run, mkToolCall, pyMessage, h1, h2, h3, h4]

/-- Witness for C7: each of the four cataloged names dispatched with a
minimal valid argument set on concrete oracles succeeds with the matching
pass's report, and the name `bogus` fails with the unknown-tool error. -/
theorem C7_witness :
    handle_request parse0 b640 (mkToolCall 1 "extract_comments" (some "f.xlsx") (some "AA")) =
      { id := 1
      , result := Except.ok (RpcResult.content (ToolResult.comments (extract_comments_wb (some "f.xlsx") []))) }
    ∧ handle_request parse0 b640 (mkToolCall 2 "extract_questions" (some "f.xlsx") (some "AA")) =
      { id := 2
      , result := Except.ok (RpcResult.content (ToolResult.questions (extract_questions_wb (some "f.xlsx") []))) }
    ∧ handle_request parse0 b640 (mkToolCall 3 "detect_hidden_content" (some "f.xlsx") (some "AA")) =
      { id := 3
      , result := Except.ok (RpcResult.content (ToolResult.hidden (detect_hidden_content_wb (some "f.xlsx") []))) }
    ∧ handle_request parse0 b640 (mkToolCall 4 "comprehensive_analysis" (some "f.xlsx") (some "AA")) =
      { id := 4
      , result := Except.ok (RpcResult.content (ToolResult.comprehensive (comprehensive_analysis_wb (some "f.xlsx") []))) }
    ∧ handle_request parse0 b640 (mkToolCall 9 "bogus" (some "f.xlsx") none) =
      { id := 9
      , result := Except.error { code := -32603, message := "Internal error"
                               , data := "Unknown tool: bogus" } } :=
  ⟨(C7_tool_catalog_roundtrip.2.2.2.1 parse0 b640 1 (some "f.xlsx") "AA" [] [] rfl rfl).1,
   (C7_tool_catalog_roundtrip.2.2.2.1 parse0 b640 2 (some "f.xlsx") "AA" [] [] rfl rfl).2.1,
   (C7_tool_catalog_roundtrip.2.2.2.1 parse0 b640 3 (some "f.xlsx") "AA" [] [] rfl rfl).2.2.1,
   (C7_tool_catalog_roundtrip.2.2.2.1 parse0 b640 4 (some "f.xlsx") "AA" [] [] rfl rfl).2.2.2,
   C7_tool_catalog_roundtrip.2.2.2.2 "bogus" (by decide) parse0 b640 9 (some "f.xlsx")⟩

/-- Counterexample to claim C8: the whitespace-only input line is consumed
without any response line being produced, so one line of input does not
always yield one line of output. -/
theorem C8_counterexample :
    ¬ ((main jpBad parse0 b640 [""]).length = ([""] : List String).length) := by decide

/-- Claim C8 as amended: the main loop is strictly serialized and emits, in
input order, exactly one response line per input line that does not strip to
empty; lines consisting solely of whitespace are skipped with no output. -/
theorem C8_one_response_per_nonblank_line (jsonParse : String → Except String Request)
    (parse : List Nat → Except PyErr Workbook) (b64decode : String → Except PyErr (List Nat))
    (lines : List String) :
    main jsonParse parse b64decode lines =
      (lines.filter (fun l => !(pyIsBlank l))).map (respond_line jsonParse parse b64decode) := by
  induction lines with
  | nil => rfl
  | cons l t ih =>
    by_cases h : pyIsBlank l
    · simp only [main, List.filterMap_cons, List.filter_cons, h] at ih ⊢
      simp [h, ih]
    · simp only [main, List.filterMap_cons, List.filter_cons, h] at ih ⊢
      simp [h, ih]

/-- Claim C9: a `tools/call` request naming a cataloged tool but carrying no
top-level `fileContent` field passes `None` as the file buffer, the
adapter's attempt to stage it fails with the `TypeError`, and the response
is the `-32603` error carrying that cause — the workbook bytes are only ever
taken from the decoded `fileContent` payload (the theorem holds for every
`filename` argument, which is never used to read a file). -/
theorem C9_missing_fileContent_fails (parse : List Nat → Except PyErr Workbook)
    (b64decode : String → Except PyErr (List Nat)) (request : Request) (name : String)
    (hm : request.method = some "tools/call")
    (hn : (request.params.getD { name := none, arguments := none }).name = some name)
    (hmem : name ∈ TOOLS.map (fun t => t.name))
    (hf : request.fileContent = none) :
    handle_request parse b64decode request =
      { id := request.id.getD 0
      , result := Except.error { code := -32603, message := "Internal error"
                               , data := "a bytes-like object is required, not NoneType" } } := by
  have hmem' : name = "extract_comments" ∨ name = "extract_questions"
      ∨ name = "detect_hidden_content" ∨ name = "comprehensive_analysis" := by
    simpa [TOOLS] using hmem
  rcases hmem' with rfl | rfl | rfl | rfl <;>
    simp [handle_request, handle_request_run, hm, hn, hf,
      extract_comments, extract_questions, detect_hidden_content, comprehensive_analysis,
      load_workbook_from_buffer, Except.map, Bind.bind, Except.bind, pyMessage]

/-- Witness for C9: a concrete `detect_hidden_content` call without
`fileContent` is answered with the `-32603` staging-failure error. -/
theorem C9_witness :
    handle_request parse0 b640 (mkToolCall 2 "detect_hidden_content" (some "f.xlsx") none) =
      { id := 2
      , result := Except.error { code := -32603, message := "Internal error"
                               , data := "a bytes-like object is required, not NoneType" } } :=
  C9_missing_fileContent_fails parse0 b640
    (mkToolCall 2 "detect_hidden_content" (some "f.xlsx") none)
    "detect_hidden_content" rfl rfl (by decide) rfl

/-- Claim C10: `detect_hidden_content` reports the sheet-level `hidden`
field as true exactly when the worksheet's visibility state equals `hidden`,
so a `veryHidden` worksheet is reported with `hidden = false`. -/
theorem C10_sheet_hidden_state (fn : Option String) (wb : Workbook) :
    ((detect_hidden_content_wb fn wb).worksheets.map (fun e => e.hidden) =
      wb.map (fun ws => ws.sheet_state == "hidden"))
    ∧ (detect_hidden_content_wb (some "h.xlsx") [wsC10]).worksheets.map (fun e => e.hidden) =
      [false]
    ∧ wsC10.sheet_state = "veryHidden" := by
  refine ⟨?_, by decide, rfl⟩
  simp only [detect_hidden_content_wb, List.map_map]
  rfl

end Excel
